import Mathlib

/-
Verification development for the Night-Sky-Visualizer program
(src/night_sky.py).  The program is embedded shallowly:

* a CSV file is modelled after the csv library has split it into a header
  row and data rows (the CSV parsing library itself is an external
  collaborator, out of scope per the specification);
* Python floats are modelled as rationals, Python exceptions as an
  explicit error type threaded through `Except`;
* the matplotlib collaborator is modelled by the pure chart geometry the
  code hands to it plus an effect trace for the resource-handling claims;
* `argparse` is modelled by an explicit recursive parser over the token
  list implementing the configured options and the closed `choices` set.
-/

namespace NightSky

/-- Python exceptions that the program can raise, with the payload that the
corresponding exception message carries. -/
inductive PyError where
  | keyError (key : String)
  | valueError (s : String)
  | typeError (msg : String)
  | fileNotFound (path : String)
deriving DecidableEq, Repr

instance {ε α : Type} [DecidableEq ε] [DecidableEq α] : DecidableEq (Except ε α)
  | .error e, .error f =>
    if h : e = f then .isTrue (by rw [h]) else .isFalse (fun c => h (Except.error.inj c))
  | .error _, .ok _ => .isFalse (fun c => Except.noConfusion c)
  | .ok _, .error _ => .isFalse (fun c => Except.noConfusion c)
  | .ok a, .ok b =>
    if h : a = b then .isTrue (by rw [h]) else .isFalse (fun c => h (Except.ok.inj c))

/-- Star record (night_sky.py lines 16-22).  `name` is an `Option String`
because the dataclass annotation is not enforced at runtime and
csv.DictReader supplies None (its restval) for a row shorter than the
header; the three coordinates are Python floats, modelled as rationals. -/
structure Star where
  name : Option String
  ra_deg : ℚ
  dec_deg : ℚ
  mag : ℚ
deriving DecidableEq, Repr

/-- A theme is a background/foreground colour pair (the "bg"/"fg" dict). -/
structure Theme where
  bg : String
  fg : String
deriving DecidableEq, Repr

/-- THEMES registry (night_sky.py lines 25-28), as an association list. -/
def THEMES : List (String × Theme) :=
  [("dark", ⟨"black", "white"⟩), ("light", ⟨"#f2f2f2", "#111111"⟩)]

/-- THEMES.get(theme, THEMES["dark"]) on line 50: dictionary lookup with the
dark theme as the default for absent keys.  `THEMES["dark"]` is the first
entry of the registry. -/
def resolveTheme (theme : String) : Theme :=
  (THEMES.lookup theme).getD ⟨"black", "white"⟩

/-- Decimal-digit run to a natural number. -/
def natOfDigits (cs : List Char) : Nat :=
  cs.foldl (fun a c => a * 10 + (c.toNat - 48)) 0

/-- Unsigned fragment of the Python float() grammar: a digit run with an
optional fractional part.  Strings outside this fragment (which also leaves
out exponents and the inf/nan spellings) are treated as unparseable; every
claim about parses is stated relative to this parser. -/
def parseUnsigned (cs : List Char) : Option ℚ :=
  let intPart := cs.takeWhile Char.isDigit
  let rest := cs.dropWhile Char.isDigit
  match rest with
  | [] => if intPart.isEmpty then none else some (natOfDigits intPart)
  | '.' :: frac =>
    if frac.all Char.isDigit && !(intPart.isEmpty && frac.isEmpty) then
      some ((natOfDigits intPart : ℚ) + (natOfDigits frac : ℚ) / ((10 : ℚ) ^ frac.length))
    else none
  | _ => none

/-- Python float(s) on a string argument: optional sign then the unsigned
grammar; `none` models the ValueError raised on an unparseable string. -/
def parseFloat (s : String) : Option ℚ :=
  match s.toList with
  | [] => none
  | '-' :: rest => (parseUnsigned rest).map (fun q => -q)
  | '+' :: rest => parseUnsigned rest
  | cs => parseUnsigned cs

/-- Message of the TypeError raised by float(None). -/
def floatNoneMsg : String :=
  "float() argument must be a string or a real number, not NoneType"

/-- Python float(v) where v came out of a DictReader row dict: v is None
(restval for a short row) or a string.  float(None) raises TypeError;
an unparseable string raises ValueError carrying the offending text. -/
def pyFloat : Option String → Except PyError ℚ
  | none => .error (.typeError floatNoneMsg)
  | some s =>
    match parseFloat s with
    | some q => .ok q
    | none => .error (.valueError s)

/-- Index used by the row dict csv.DictReader builds with
dict(zip(fieldnames, row)) plus the restval loop: for a duplicated field
name the last occurrence wins. -/
def lastIdxOf (header : List String) (k : String) : Option Nat :=
  match header.reverse.findIdx? (· == k) with
  | none => none
  | some j => some (header.length - 1 - j)

/-- row[k] on a DictReader row: KeyError when the column is absent from the
header; the value is None (DictReader restval) when the row is shorter than
the header, and the raw cell text otherwise. -/
def dictGet (header row : List String) (k : String) : Except PyError (Option String) :=
  match lastIdxOf header k with
  | none => .error (.keyError k)
  | some i => .ok (row.get? i)

/-- Loop body of read_stars (night_sky.py lines 37-44): builds one Star from
one DictReader row.  The keyword arguments are evaluated left to right:
row["name"], float(row["ra_deg"]), float(row["dec_deg"]), float(row["mag"]),
the first raised exception aborting the row. -/
def readRow (header row : List String) : Except PyError Star :=
  match dictGet header row "name" with
  | .error e => .error e
  | .ok nameVal =>
    match dictGet header row "ra_deg" with
    | .error e => .error e
    | .ok raVal =>
      match pyFloat raVal with
      | .error e => .error e
      | .ok ra =>
        match dictGet header row "dec_deg" with
        | .error e => .error e
        | .ok decVal =>
          match pyFloat decVal with
          | .error e => .error e
          | .ok dec =>
            match dictGet header row "mag" with
            | .error e => .error e
            | .ok magVal =>
              match pyFloat magVal with
              | .error e => .error e
              | .ok mag => .ok ⟨nameVal, ra, dec, mag⟩

/-- The `for row in reader` loop of read_stars: rows are consumed in file
order, each appended Star keeping that order; the first exception aborts
the whole loop and the local list is discarded. -/
def readAll (header : List String) : List (List String) → Except PyError (List Star)
  | [] => .ok []
  | r :: rs =>
    match readRow header r with
    | .error e => .error e
    | .ok st =>
      match readAll header rs with
      | .error e => .error e
      | .ok sts => .ok (st :: sts)

/-- read_stars (night_sky.py lines 31-45) after the csv library has split
the file into a header and data rows.  csv.DictReader skips blank rows
(rows parsed as the empty list) before building row dicts. -/
def read_stars (header : List String) (rows : List (List String)) :
    Except PyError (List Star) :=
  readAll header (rows.filter (fun r => !r.isEmpty))

/-- Chart geometry that plot_sky (night_sky.py lines 48-69) hands to the
matplotlib collaborator: themed colours, inverted x axis, the scatter data
(positions, marker sizes, opacity), optional labels and the decorations. -/
structure Chart where
  bg : String
  fg : String
  invertX : Bool
  ra : List ℚ
  dec : List ℚ
  sizes : List ℚ
  markerAlpha : ℚ
  labels : List (ℚ × ℚ × Option String)
  xlabel : String
  ylabel : String
  title : String
  gridAlpha : ℚ
deriving DecidableEq, Repr

/-- Pure part of plot_sky: the geometry and styling computed from the stars
and the theme.  Marker sizes come from line 58:
sizes = [max(1, 10 - s.mag * 2) ** 2 for s in stars]. -/
def plotSky (stars : List Star) (theme : String) (show_labels : Bool) : Chart :=
  let style := resolveTheme theme
  { bg := style.bg
    fg := style.fg
    invertX := true
    ra := stars.map (fun s => s.ra_deg)
    dec := stars.map (fun s => s.dec_deg)
    sizes := stars.map (fun s => (max 1 (10 - s.mag * 2)) ^ 2)
    markerAlpha := 8 / 10
    labels := if show_labels then stars.map (fun s => (s.ra_deg, s.dec_deg, s.name)) else []
    xlabel := "Right Ascension (deg)"
    ylabel := "Declination (deg)"
    title := "Night Sky"
    gridAlpha := 2 / 10 }

/-- Observable rendering effects of plot_sky, for the resource claims. -/
inductive Event where
  | readFile (p : String)
  | openFig
  | writeImage (p : String)
  | saveFail (p : String)
  | closeFig
deriving DecidableEq, Repr

/-- Effect trace of plot_sky (night_sky.py lines 52-72): plt.subplots
acquires the figure; fig.savefig on line 71 either writes the image or
raises; plt.close(fig) on line 72 is straight-line code after savefig, so
it runs only when savefig returned normally — there is no try/finally.
`saveOk` abstracts whether the save succeeds (output path writable).
Returns the trace and whether the call returned normally. -/
def plotSkyRun (stars : List Star) (theme : String) (show_labels : Bool)
    (output : String) (saveOk : Bool) : List Event × Bool :=
  if saveOk then ([Event.openFig, Event.writeImage output, Event.closeFig], true)
  else ([Event.openFig, Event.saveFail output], false)

/-- Parsed command-line options of main (night_sky.py lines 77-99). -/
structure Args where
  data : String
  theme : String
  show_labels : Bool
  output : String
deriving DecidableEq, Repr

/-- argparse defaults (lines 79, 85, 91, 96). -/
def defaultArgs : Args :=
  { data := "data/stars.csv", theme := "dark", show_labels := false
    output := "night_sky.png" }

/-- choices=sorted(THEMES) on line 86: the sorted theme names. -/
def themeChoices : List String := ["dark", "light"]

/-- Errors argparse reports at parse time (exiting with a usage message). -/
inductive ParseError where
  | invalidChoice (opt v : String)
  | badArg (s : String)
deriving DecidableEq, Repr

/-- Usage-error text argparse writes to stderr before exiting with status
2; for an invalid choice it names the argument and the offending value. -/
def usageMessage : ParseError → String
  | .invalidChoice opt v =>
    "usage: night_sky.py ... error: argument " ++ opt ++ ": invalid choice: " ++ v
  | .badArg s => "usage: night_sky.py ... error: unrecognized arguments: " ++ s

/-- Model of parser.parse_args on the configured options: --data and
--output take an arbitrary value, --show-labels is a flag, --theme takes a
value restricted to the closed `themeChoices` set; anything else is a
usage error.  Options are given in the standard "--opt value" form. -/
def parseArgs : List String → Args → Except ParseError Args
  | [], a => .ok a
  | arg :: rest, a =>
    if arg = "--show-labels" then parseArgs rest { a with show_labels := true }
    else if arg = "--data" then
      match rest with
      | v :: rest2 => parseArgs rest2 { a with data := v }
      | [] => .error (.badArg arg)
    else if arg = "--theme" then
      match rest with
      | v :: rest2 =>
        if themeChoices.contains v then parseArgs rest2 { a with theme := v }
        else .error (.invalidChoice arg v)
      | [] => .error (.badArg arg)
    else if arg = "--output" then
      match rest with
      | v :: rest2 => parseArgs rest2 { a with output := v }
      | [] => .error (.badArg arg)
    else .error (.badArg arg)

/-- The filesystem as the loader sees it: a path maps to the header and
data rows of the CSV stored there, or to nothing when the file is absent. -/
def FS : Type := String → Option (List String × List (List String))

/-- read_stars applied to a path: path.open raises FileNotFoundError for a
missing file, otherwise the CSV content is read. -/
def loadStars (fs : FS) (path : String) : Except PyError (List Star) :=
  match fs path with
  | none => .error (.fileNotFound path)
  | some (header, rows) => read_stars header rows

/-- Last line of the traceback the Python runtime prints to stderr for an
uncaught exception: the exception class (the failure kind) and its message
(the context — offending path, value or key). -/
def errMessage : PyError → String
  | .keyError k => "KeyError: " ++ k
  | .valueError s => "ValueError: could not convert string to float: " ++ s
  | .typeError m => "TypeError: " ++ m
  | .fileNotFound p => "FileNotFoundError: [Errno 2] No such file or directory: " ++ p

/-- Outcome of one process run: exit status, what was written to stderr,
and the file-system/rendering effects in order. -/
structure MainOut where
  exit : Nat
  stderr : Option String
  events : List Event
deriving DecidableEq, Repr

/-- main (night_sky.py lines 75-104): parse_args, then read_stars, then
plot_sky, straight-line.  argparse exits with status 2 and a usage message
on a parse error, before any file is touched.  main catches nothing, so an
exception raised by the loader or the renderer terminates the interpreter
with status 1 after the traceback is written to stderr; a normal return
exits with status 0. -/
def pyMain (argv : List String) (fs : FS) (saveOk : Bool) : MainOut :=
  match parseArgs argv defaultArgs with
  | .error e => { exit := 2, stderr := some (usageMessage e), events := [] }
  | .ok args =>
    match loadStars fs args.data with
    | .error err =>
      { exit := 1, stderr := some (errMessage err), events := [Event.readFile args.data] }
    | .ok stars =>
      match plotSkyRun stars args.theme args.show_labels args.output saveOk with
      | (tr, true) => { exit := 0, stderr := none, events := Event.readFile args.data :: tr }
      | (tr, false) =>
        { exit := 1, stderr := some (errMessage (.fileNotFound args.output))
          events := Event.readFile args.data :: tr }

/-- The four column names read_stars requires of a row dict. -/
def requiredCols : List String := ["name", "ra_deg", "dec_deg", "mag"]

/-- Number of stars visible in a load result: the list length on success,
nothing when the load raised.  Convenient for stating results without
normalizing the rational coordinates. -/
def starCount : Except PyError (List Star) → Option Nat
  | .ok l => some l.length
  | .error _ => none

/-- A fully valid data row: the name column is in the header, and each of
the three numeric columns holds a string that parses as a float. -/
def RowOK (header row : List String) : Prop :=
  (∃ v, dictGet header row "name" = .ok v) ∧
  (∃ s q, dictGet header row "ra_deg" = .ok (some s) ∧ parseFloat s = some q) ∧
  (∃ s q, dictGet header row "dec_deg" = .ok (some s) ∧ parseFloat s = some q) ∧
  (∃ s q, dictGet header row "mag" = .ok (some s) ∧ parseFloat s = some q)

/-- The Star a row gives rise to: the name is the row dict value taken as
text, and each coordinate is the float parsed from the row dict string. -/
def StarMatchesRow (header row : List String) (st : Star) : Prop :=
  dictGet header row "name" = .ok st.name ∧
  (∃ s, dictGet header row "ra_deg" = .ok (some s) ∧ parseFloat s = some st.ra_deg) ∧
  (∃ s, dictGet header row "dec_deg" = .ok (some s) ∧ parseFloat s = some st.dec_deg) ∧
  (∃ s, dictGet header row "mag" = .ok (some s) ∧ parseFloat s = some st.mag)

/-- All four required fields of the row are present (the name key exists,
and the three numeric columns hold actual strings, parseable or not). -/
def RowFields (header row : List String) : Prop :=
  (∃ v, dictGet header row "name" = .ok v) ∧
  (∃ s, dictGet header row "ra_deg" = .ok (some s)) ∧
  (∃ s, dictGet header row "dec_deg" = .ok (some s)) ∧
  (∃ s, dictGet header row "mag" = .ok (some s))

/-- Some numeric field of the row holds a string float() rejects. -/
def HasBadFloat (header row : List String) : Prop :=
  (∃ s, dictGet header row "ra_deg" = .ok (some s) ∧ parseFloat s = none) ∨
  (∃ s, dictGet header row "dec_deg" = .ok (some s) ∧ parseFloat s = none) ∨
  (∃ s, dictGet header row "mag" = .ok (some s) ∧ parseFloat s = none)

/-- Every numeric field of the row that actually holds a string parses. -/
def NumericPresentParses (header row : List String) : Prop :=
  (∀ s, dictGet header row "ra_deg" = .ok (some s) → ∃ q, parseFloat s = some q) ∧
  (∀ s, dictGet header row "dec_deg" = .ok (some s) → ∃ q, parseFloat s = some q) ∧
  (∀ s, dictGet header row "mag" = .ok (some s) → ∃ q, parseFloat s = some q)

/-- The row is too short for some numeric column: its dict value is None. -/
def MissingNumericValue (header row : List String) : Prop :=
  dictGet header row "ra_deg" = .ok none ∨
  dictGet header row "dec_deg" = .ok none ∨
  dictGet header row "mag" = .ok none

lemma pyFloat_some_of_parse {s : String} {q : ℚ} (h : parseFloat s = some q) :
    pyFloat (some s) = .ok q := by
  simp [pyFloat, h]

lemma pyFloat_valueError_of_parse {s : String} (h : parseFloat s = none) :
    pyFloat (some s) = .error (.valueError s) := by
  simp [pyFloat, h]

lemma pyFloat_none_typeError : pyFloat none = .error (.typeError floatNoneMsg) := rfl

lemma pyFloat_ok_dest {v : Option String} {q : ℚ} (h : pyFloat v = .ok q) :
    ∃ s, v = some s ∧ parseFloat s = some q := by
  cases v with
  | none => simp [pyFloat] at h
  | some s =>
    refine ⟨s, rfl, ?_⟩
    cases hp : parseFloat s with
    | none => simp [pyFloat, hp] at h
    | some q2 => simp [pyFloat, hp] at h; rw [h]

lemma dictGet_ok_key {header row : List String} {k : String} {v : Option String}
    (h : dictGet header row k = .ok v) : lastIdxOf header k ≠ none := by
  intro hn
  rw [dictGet, hn] at h
  simp at h

lemma dictGet_of_idx {header row : List String} {k : String} {i : Nat}
    (h : lastIdxOf header k = some i) : dictGet header row k = .ok (row.get? i) := by
  rw [dictGet, h]

lemma dictGet_keyError {header row : List String} {k : String}
    (h : lastIdxOf header k = none) : dictGet header row k = .error (.keyError k) := by
  rw [dictGet, h]

lemma row_nonempty_of_value {header row : List String} {k s : String}
    (h : dictGet header row k = .ok (some s)) : (!row.isEmpty) = true := by
  unfold dictGet at h
  cases hl : lastIdxOf header k with
  | none => rw [hl] at h; simp at h
  | some i =>
    rw [hl] at h
    simp at h
    cases row with
    | nil => simp [List.get?] at h
    | cons a l => rfl

/-- Building a successful row read from its six field equations. -/
lemma readRow_ok_build {header row : List String} {nv rv dv mv : Option String}
    {ra dec mag : ℚ}
    (h1 : dictGet header row "name" = .ok nv)
    (h2 : dictGet header row "ra_deg" = .ok rv) (h3 : pyFloat rv = .ok ra)
    (h4 : dictGet header row "dec_deg" = .ok dv) (h5 : pyFloat dv = .ok dec)
    (h6 : dictGet header row "mag" = .ok mv) (h7 : pyFloat mv = .ok mag) :
    readRow header row = .ok ⟨nv, ra, dec, mag⟩ := by
  simp only [readRow, h1, h2, h3, h4, h5, h6, h7]

/-- Destructing a successful row read into its six field equations. -/
lemma readRow_ok_dest {header row : List String} {st : Star}
    (hok : readRow header row = .ok st) :
    ∃ rv dv mv, dictGet header row "name" = .ok st.name ∧
      dictGet header row "ra_deg" = .ok rv ∧ pyFloat rv = .ok st.ra_deg ∧
      dictGet header row "dec_deg" = .ok dv ∧ pyFloat dv = .ok st.dec_deg ∧
      dictGet header row "mag" = .ok mv ∧ pyFloat mv = .ok st.mag := by
  unfold readRow at hok
  cases hn : dictGet header row "name" with
  | error e => simp [hn] at hok
  | ok nv =>
    simp only [hn] at hok
    cases hr : dictGet header row "ra_deg" with
    | error e => simp [hr] at hok
    | ok rv =>
      simp only [hr] at hok
      cases hrf : pyFloat rv with
      | error e => simp [hrf] at hok
      | ok ra =>
        simp only [hrf] at hok
        cases hd : dictGet header row "dec_deg" with
        | error e => simp [hd] at hok
        | ok dv =>
          simp only [hd] at hok
          cases hdf : pyFloat dv with
          | error e => simp [hdf] at hok
          | ok dec =>
            simp only [hdf] at hok
            cases hm : dictGet header row "mag" with
            | error e => simp [hm] at hok
            | ok mv =>
              simp only [hm] at hok
              cases hmf : pyFloat mv with
              | error e => simp [hmf] at hok
              | ok mag =>
                simp only [hmf] at hok
                have hst : (⟨nv, ra, dec, mag⟩ : Star) = st := by
                  exact Except.ok.inj hok
                subst hst
                refine ⟨rv, dv, mv, ?_, ?_, ?_, ?_, ?_, ?_, ?_⟩ <;>
                  simp [hn, hr, hrf, hd, hdf, hm, hmf]

/-- When every row reads successfully, readAll succeeds and pairs the rows
with their stars in order. -/
lemma readAll_ok_forall {header : List String} {l : List (List String)}
    (h : ∀ r ∈ l, ∃ st, readRow header r = .ok st) :
    ∃ stars, readAll header l = .ok stars ∧
      List.Forall₂ (fun r st => readRow header r = .ok st) l stars := by
  induction l with
  | nil => exact ⟨[], rfl, List.Forall₂.nil⟩
  | cons r rs ih =>
    obtain ⟨st, hst⟩ := h r (List.mem_cons_self r rs)
    obtain ⟨stars, hstars, hall⟩ := ih (fun x hx => h x (List.mem_cons_of_mem _ hx))
    refine ⟨st :: stars, ?_, List.Forall₂.cons hst hall⟩
    simp [readAll, hst, hstars]

/-- When every row either reads successfully or raises an error satisfying
P, and some row cannot read successfully, readAll raises an error
satisfying P. -/
lemma readAll_error_mixed {header : List String} {l : List (List String)}
    (P : PyError → Prop)
    (htri : ∀ r ∈ l, (∃ st, readRow header r = .ok st) ∨
      (∃ e, readRow header r = .error e ∧ P e))
    (hbad : ∃ r ∈ l, ∀ st, readRow header r ≠ .ok st) :
    ∃ e, readAll header l = .error e ∧ P e := by
  induction l with
  | nil =>
    obtain ⟨r, hr, _⟩ := hbad
    exact absurd hr (List.not_mem_nil r)
  | cons r rs ih =>
    rcases htri r (List.mem_cons_self r rs) with ⟨st, hst⟩ | ⟨e, he, hPe⟩
    · obtain ⟨b, hb, hbok⟩ := hbad
      rcases List.mem_cons.mp hb with hbr | hbtail
      · exact absurd hst (hbr ▸ hbok st)
      · obtain ⟨e, hee, hPe⟩ :=
          ih (fun x hx => htri x (List.mem_cons_of_mem _ hx)) ⟨b, hbtail, hbok⟩
        exact ⟨e, by simp [readAll, hst, hee], hPe⟩
    · exact ⟨e, by simp [readAll, he], hPe⟩

lemma readRow_valueError_ra {header row : List String} {nv : Option String} {s : String}
    (h1 : dictGet header row "name" = .ok nv)
    (h2 : dictGet header row "ra_deg" = .ok (some s)) (h3 : parseFloat s = none) :
    readRow header row = .error (.valueError s) := by
  simp only [readRow, h1, h2, pyFloat_valueError_of_parse h3]

lemma readRow_valueError_dec {header row : List String} {nv : Option String}
    {s1 s : String} {q1 : ℚ}
    (h1 : dictGet header row "name" = .ok nv)
    (h2 : dictGet header row "ra_deg" = .ok (some s1)) (h3 : parseFloat s1 = some q1)
    (h4 : dictGet header row "dec_deg" = .ok (some s)) (h5 : parseFloat s = none) :
    readRow header row = .error (.valueError s) := by
  simp only [readRow, h1, h2, pyFloat_some_of_parse h3, h4, pyFloat_valueError_of_parse h5]

lemma readRow_valueError_mag {header row : List String} {nv : Option String}
    {s1 s2 s : String} {q1 q2 : ℚ}
    (h1 : dictGet header row "name" = .ok nv)
    (h2 : dictGet header row "ra_deg" = .ok (some s1)) (h3 : parseFloat s1 = some q1)
    (h4 : dictGet header row "dec_deg" = .ok (some s2)) (h5 : parseFloat s2 = some q2)
    (h6 : dictGet header row "mag" = .ok (some s)) (h7 : parseFloat s = none) :
    readRow header row = .error (.valueError s) := by
  simp only [readRow, h1, h2, pyFloat_some_of_parse h3, h4, pyFloat_some_of_parse h5, h6,
    pyFloat_valueError_of_parse h7]

lemma readRow_typeError_ra {header row : List String} {nv : Option String}
    (h1 : dictGet header row "name" = .ok nv)
    (h2 : dictGet header row "ra_deg" = .ok none) :
    readRow header row = .error (.typeError floatNoneMsg) := by
  simp only [readRow, h1, h2, pyFloat_none_typeError]

lemma readRow_typeError_dec {header row : List String} {nv : Option String}
    {s1 : String} {q1 : ℚ}
    (h1 : dictGet header row "name" = .ok nv)
    (h2 : dictGet header row "ra_deg" = .ok (some s1)) (h3 : parseFloat s1 = some q1)
    (h4 : dictGet header row "dec_deg" = .ok none) :
    readRow header row = .error (.typeError floatNoneMsg) := by
  simp only [readRow, h1, h2, pyFloat_some_of_parse h3, h4, pyFloat_none_typeError]

lemma readRow_typeError_mag {header row : List String} {nv : Option String}
    {s1 s2 : String} {q1 q2 : ℚ}
    (h1 : dictGet header row "name" = .ok nv)
    (h2 : dictGet header row "ra_deg" = .ok (some s1)) (h3 : parseFloat s1 = some q1)
    (h4 : dictGet header row "dec_deg" = .ok (some s2)) (h5 : parseFloat s2 = some q2)
    (h6 : dictGet header row "mag" = .ok none) :
    readRow header row = .error (.typeError floatNoneMsg) := by
  simp only [readRow, h1, h2, pyFloat_some_of_parse h3, h4, pyFloat_some_of_parse h5, h6,
    pyFloat_none_typeError]

/-- A row with all four fields present either reads, or raises the
ValueError of its first unparseable numeric string. -/
lemma readRow_tri_of_fields {header row : List String} (hf : RowFields header row) :
    (∃ st, readRow header row = .ok st) ∨
    (∃ s, readRow header row = .error (.valueError s) ∧ parseFloat s = none) := by
  obtain ⟨⟨nv, hn⟩, ⟨s1, h1⟩, ⟨s2, h2⟩, ⟨s3, h3⟩⟩ := hf
  cases hp1 : parseFloat s1 with
  | none => exact Or.inr ⟨s1, readRow_valueError_ra hn h1 hp1, hp1⟩
  | some q1 =>
    cases hp2 : parseFloat s2 with
    | none => exact Or.inr ⟨s2, readRow_valueError_dec hn h1 hp1 h2 hp2, hp2⟩
    | some q2 =>
      cases hp3 : parseFloat s3 with
      | none => exact Or.inr ⟨s3, readRow_valueError_mag hn h1 hp1 h2 hp2 h3 hp3, hp3⟩
      | some q3 =>
        exact Or.inl ⟨⟨nv, q1, q2, q3⟩, readRow_ok_build hn h1 (pyFloat_some_of_parse hp1)
          h2 (pyFloat_some_of_parse hp2) h3 (pyFloat_some_of_parse hp3)⟩

lemma readRow_not_ok_of_badfloat {header row : List String} (hb : HasBadFloat header row) :
    ∀ st, readRow header row ≠ .ok st := by
  intro st hok
  obtain ⟨rv, dv, mv, g1, g2, g3, g4, g5, g6, g7⟩ := readRow_ok_dest hok
  rcases hb with ⟨s, hg, hp⟩ | ⟨s, hg, hp⟩ | ⟨s, hg, hp⟩
  · have hv : rv = some s := Except.ok.inj (g2.symm.trans hg)
    rw [hv, pyFloat_valueError_of_parse hp] at g3
    simp at g3
  · have hv : dv = some s := Except.ok.inj (g4.symm.trans hg)
    rw [hv, pyFloat_valueError_of_parse hp] at g5
    simp at g5
  · have hv : mv = some s := Except.ok.inj (g6.symm.trans hg)
    rw [hv, pyFloat_valueError_of_parse hp] at g7
    simp at g7

lemma readRow_not_ok_of_missing {header row : List String}
    (hm : MissingNumericValue header row) : ∀ st, readRow header row ≠ .ok st := by
  intro st hok
  obtain ⟨rv, dv, mv, g1, g2, g3, g4, g5, g6, g7⟩ := readRow_ok_dest hok
  rcases hm with hg | hg | hg
  · have hv : rv = none := Except.ok.inj (g2.symm.trans hg)
    rw [hv, pyFloat_none_typeError] at g3
    simp at g3
  · have hv : dv = none := Except.ok.inj (g4.symm.trans hg)
    rw [hv, pyFloat_none_typeError] at g5
    simp at g5
  · have hv : mv = none := Except.ok.inj (g6.symm.trans hg)
    rw [hv, pyFloat_none_typeError] at g7
    simp at g7

/-- With every required column in the header and every present numeric
string parseable, a row either reads or raises float(None)s TypeError. -/
lemma readRow_tri_of_keys {header row : List String}
    (hkeys : ∀ k ∈ requiredCols, lastIdxOf header k ≠ none)
    (hpp : NumericPresentParses header row) :
    (∃ st, readRow header row = .ok st) ∨
    readRow header row = .error (.typeError floatNoneMsg) := by
  obtain ⟨hpra, hpdec, hpmag⟩ := hpp
  have hidx : ∀ k ∈ requiredCols, ∃ i, lastIdxOf header k = some i := by
    intro k hk
    cases h : lastIdxOf header k with
    | none => exact absurd h (hkeys k hk)
    | some i => exact ⟨i, rfl⟩
  obtain ⟨iN, hiN⟩ := hidx "name" (by decide)
  obtain ⟨iR, hiR⟩ := hidx "ra_deg" (by decide)
  obtain ⟨iD, hiD⟩ := hidx "dec_deg" (by decide)
  obtain ⟨iM, hiM⟩ := hidx "mag" (by decide)
  have hn := @dictGet_of_idx header row _ _ hiN
  have hr := @dictGet_of_idx header row _ _ hiR
  have hd := @dictGet_of_idx header row _ _ hiD
  have hm := @dictGet_of_idx header row _ _ hiM
  cases hvr : row.get? iR with
  | none => exact Or.inr (readRow_typeError_ra hn (hvr ▸ hr))
  | some s1 =>
    obtain ⟨q1, hq1⟩ := hpra s1 (hvr ▸ hr)
    cases hvd : row.get? iD with
    | none => exact Or.inr (readRow_typeError_dec hn (hvr ▸ hr) hq1 (hvd ▸ hd))
    | some s2 =>
      obtain ⟨q2, hq2⟩ := hpdec s2 (hvd ▸ hd)
      cases hvm : row.get? iM with
      | none => exact Or.inr (readRow_typeError_mag hn (hvr ▸ hr) hq1 (hvd ▸ hd) hq2 (hvm ▸ hm))
      | some s3 =>
        obtain ⟨q3, hq3⟩ := hpmag s3 (hvm ▸ hm)
        exact Or.inl ⟨⟨row.get? iN, q1, q2, q3⟩, readRow_ok_build hn (hvr ▸ hr)
          (pyFloat_some_of_parse hq1) (hvd ▸ hd) (pyFloat_some_of_parse hq2)
          (hvm ▸ hm) (pyFloat_some_of_parse hq3)⟩

/-- C1: for a CSV whose rows all have the name column and parseable float
strings in ra_deg, dec_deg and mag, read_stars returns exactly one Star per
data row, in row order, the name taken as text and the three numeric
fields parsed as floats. -/
theorem read_stars_valid_rows (header : List String) (rows : List (List String))
    (hrows : ∀ r ∈ rows, RowOK header r) :
    ∃ stars, read_stars header rows = .ok stars ∧ stars.length = rows.length ∧
      List.Forall₂ (StarMatchesRow header) rows stars := by
  have hfilter : rows.filter (fun r => !r.isEmpty) = rows := by
    rw [List.filter_eq_self]
    intro r hr
    obtain ⟨_, ⟨s, q, hget, _⟩, _, _⟩ := hrows r hr
    exact row_nonempty_of_value hget
  have hall : ∀ r ∈ rows, ∃ st, readRow header r = .ok st := by
    intro r hr
    obtain ⟨⟨nv, hn⟩, ⟨s1, q1, h1, hp1⟩, ⟨s2, q2, h2, hp2⟩, ⟨s3, q3, h3, hp3⟩⟩ := hrows r hr
    exact ⟨⟨nv, q1, q2, q3⟩, readRow_ok_build hn h1 (pyFloat_some_of_parse hp1)
      h2 (pyFloat_some_of_parse hp2) h3 (pyFloat_some_of_parse hp3)⟩
  obtain ⟨stars, hok, hf⟩ := readAll_ok_forall hall
  refine ⟨stars, ?_, (List.Forall₂.length_eq hf).symm, ?_⟩
  · unfold read_stars
    rw [hfilter]
    exact hok
  · refine List.Forall₂.imp ?_ hf
    intro r st hr
    obtain ⟨rv, dv, mv, g1, g2, g3, g4, g5, g6, g7⟩ := readRow_ok_dest hr
    obtain ⟨s1, rfl, hs1⟩ := pyFloat_ok_dest g3
    obtain ⟨s2, rfl, hs2⟩ := pyFloat_ok_dest g5
    obtain ⟨s3, rfl, hs3⟩ := pyFloat_ok_dest g7
    exact ⟨g1, ⟨s1, g2, hs1⟩, ⟨s2, g4, hs2⟩, ⟨s3, g6, hs3⟩⟩

/-- Witness for C1 at the round-trip row of the specification. -/
theorem read_stars_valid_rows_witness :
    ∃ stars, read_stars ["name", "ra_deg", "dec_deg", "mag"]
        [["Sirius", "101.28", "-16.72", "-1.46"]] = .ok stars ∧
      stars.length = 1 ∧
      List.Forall₂ (StarMatchesRow ["name", "ra_deg", "dec_deg", "mag"])
        [["Sirius", "101.28", "-16.72", "-1.46"]] stars := by
  refine read_stars_valid_rows _ _ ?_
  intro r hr
  rw [List.mem_singleton] at hr
  subst hr
  exact ⟨⟨some "Sirius", by decide⟩, ⟨"101.28", _, by decide, rfl⟩,
    ⟨"-16.72", _, by decide, rfl⟩, ⟨"-1.46", _, by decide, rfl⟩⟩

/-- C2: a CSV whose rows all carry their four fields but where some row
has a numeric string float() rejects makes read_stars raise that
ValueError (the error payload is the offending unparseable text), so no
star list at all is produced. -/
theorem read_stars_bad_float (header : List String) (rows : List (List String))
    (hfields : ∀ r ∈ rows, RowFields header r)
    (hbad : ∃ r ∈ rows, HasBadFloat header r) :
    ∃ s, read_stars header rows = .error (.valueError s) ∧ parseFloat s = none := by
  obtain ⟨rb, hrb, hb⟩ := hbad
  have hmemf : rb ∈ rows.filter (fun r => !r.isEmpty) := by
    refine List.mem_filter.mpr ⟨hrb, ?_⟩
    obtain ⟨s, hg, _⟩ | ⟨s, hg, _⟩ | ⟨s, hg, _⟩ := hb <;> exact row_nonempty_of_value hg
  have htri : ∀ r ∈ rows.filter (fun r => !r.isEmpty),
      (∃ st, readRow header r = .ok st) ∨
      (∃ e, readRow header r = .error e ∧ ∃ s, e = .valueError s ∧ parseFloat s = none) := by
    intro r hr
    rcases readRow_tri_of_fields (hfields r (List.mem_of_mem_filter hr)) with hok | ⟨s, he, hp⟩
    · exact Or.inl hok
    · exact Or.inr ⟨.valueError s, he, s, rfl, hp⟩
  obtain ⟨e, he, s, hes, hp⟩ :=
    readAll_error_mixed _ htri ⟨rb, hmemf, readRow_not_ok_of_badfloat hb⟩
  subst hes
  exact ⟨s, he, hp⟩

/-- Witness for C2: a row whose ra_deg is the text abc. -/
theorem read_stars_bad_float_witness :
    ∃ s, read_stars ["name", "ra_deg", "dec_deg", "mag"] [["X", "abc", "0", "1"]] =
      .error (.valueError s) ∧ parseFloat s = none := by
  refine read_stars_bad_float _ _ ?_
    ⟨["X", "abc", "0", "1"], List.mem_singleton.mpr rfl, Or.inl ⟨"abc", by decide, by decide⟩⟩
  intro r hr
  rw [List.mem_singleton] at hr
  subst hr
  exact ⟨⟨some "X", by decide⟩, ⟨"abc", by decide⟩, ⟨"0", by decide⟩, ⟨"1", by decide⟩⟩

/-- C3 counterexample: with a header missing the mag column, read_stars
does not always fail with the KeyError standing for the SchemaError of the
specification — with no data rows it succeeds with the empty list, and
with a row whose ra_deg is unparseable it raises ValueError first. -/
theorem read_stars_missing_column_counterexample :
    read_stars ["name", "ra_deg", "dec_deg"] ([] : List (List String)) = .ok [] ∧
    read_stars ["name", "ra_deg", "dec_deg"] [["x", "abc", "0"]] =
      .error (.valueError "abc") := by
  exact ⟨by decide, by decide⟩

/-- C3 amended: with a required column missing from the header and at
least one nonempty data row, read_stars always fails with some exception
(the KeyError for the missing column when it is the first fault reached),
so no star list is produced and nothing can be rendered. -/
theorem read_stars_missing_column_errors (header : List String) (rows : List (List String))
    (hmiss : ∃ k ∈ requiredCols, lastIdxOf header k = none)
    (hrow : ∃ r ∈ rows, r ≠ []) :
    ∃ e, read_stars header rows = .error e := by
  obtain ⟨k, hk, hknone⟩ := hmiss
  obtain ⟨r0, hr0, hr0ne⟩ := hrow
  have hnotok : ∀ r : List String, ∀ st, readRow header r ≠ .ok st := by
    intro r st hok
    obtain ⟨rv, dv, mv, g1, g2, g3, g4, g5, g6, g7⟩ := readRow_ok_dest hok
    simp only [requiredCols, List.mem_cons, List.not_mem_nil, or_false] at hk
    rcases hk with rfl | rfl | rfl | rfl
    · exact dictGet_ok_key g1 hknone
    · exact dictGet_ok_key g2 hknone
    · exact dictGet_ok_key g4 hknone
    · exact dictGet_ok_key g6 hknone
  have hmem : r0 ∈ rows.filter (fun r => !r.isEmpty) := by
    cases r0 with
    | nil => exact absurd rfl hr0ne
    | cons a l => exact List.mem_filter.mpr ⟨hr0, rfl⟩
  obtain ⟨e, he, _⟩ := readAll_error_mixed (fun _ => True)
    (fun r _ => by
      cases hre : readRow header r with
      | error e => exact Or.inr ⟨e, rfl, trivial⟩
      | ok st => exact absurd hre (hnotok r st))
    ⟨r0, hmem, hnotok r0⟩
  exact ⟨e, he⟩

/-- Witness for the amended C3: header without mag and one data row. -/
theorem read_stars_missing_column_errors_witness :
    ∃ e, read_stars ["name", "ra_deg", "dec_deg"] [["x", "1.0", "2.0"]] = .error e :=
  read_stars_missing_column_errors _ _ ⟨"mag", by decide, by decide⟩
    ⟨["x", "1.0", "2.0"], List.mem_singleton.mpr rfl, by decide⟩

/-- C10 counterexample: a data row shorter than the header does not always
raise — here the shortfall hits only the extra note column, so read_stars
succeeds and returns one Star. -/
theorem read_stars_short_row_counterexample :
    starCount (read_stars ["name", "ra_deg", "dec_deg", "mag", "note"]
      [["Vega", "279.23", "38.78", "0.03"]]) = some 1 := by
  decide

/-- C10 amended: when the shortfall leaves one of the numeric columns
without a value (its dict entry is None), and every numeric string that is
present parses, read_stars raises the TypeError of float(None) — not a
ValueError — and returns no star list. -/
theorem read_stars_short_row_typeerror (header : List String) (rows : List (List String))
    (hkeys : ∀ k ∈ requiredCols, lastIdxOf header k ≠ none)
    (hpp : ∀ r ∈ rows, NumericPresentParses header r)
    (hmv : ∃ r ∈ rows, r ≠ [] ∧ MissingNumericValue header r) :
    read_stars header rows = .error (.typeError floatNoneMsg) := by
  obtain ⟨r0, hr0, hr0ne, hm⟩ := hmv
  have hmem : r0 ∈ rows.filter (fun r => !r.isEmpty) := by
    cases r0 with
    | nil => exact absurd rfl hr0ne
    | cons a l => exact List.mem_filter.mpr ⟨hr0, rfl⟩
  obtain ⟨e, he, hPe⟩ := readAll_error_mixed (fun e => e = .typeError floatNoneMsg)
    (fun r hr => by
      rcases readRow_tri_of_keys hkeys (hpp r (List.mem_of_mem_filter hr)) with hok | herr
      · exact Or.inl hok
      · exact Or.inr ⟨_, herr, rfl⟩)
    ⟨r0, hmem, readRow_not_ok_of_missing hm⟩
  exact hPe ▸ he

/-- Witness for the amended C10: a row missing its mag value. -/
theorem read_stars_short_row_typeerror_witness :
    read_stars ["name", "ra_deg", "dec_deg", "mag"] [["Vega", "279.23", "38.78"]] =
      .error (.typeError floatNoneMsg) := by
  refine read_stars_short_row_typeerror _ _ (by decide) ?_
    ⟨["Vega", "279.23", "38.78"], List.mem_singleton.mpr rfl, by decide,
      Or.inr (Or.inr (by decide))⟩
  intro r hr
  rw [List.mem_singleton] at hr
  subst hr
  refine ⟨?_, ?_, ?_⟩
  · intro s hs
    have hval : dictGet ["name", "ra_deg", "dec_deg", "mag"] ["Vega", "279.23", "38.78"]
        "ra_deg" = .ok (some "279.23") := by decide
    rw [hval] at hs
    have hss := Option.some.inj (Except.ok.inj hs)
    subst hss
    exact ⟨_, rfl⟩
  · intro s hs
    have hval : dictGet ["name", "ra_deg", "dec_deg", "mag"] ["Vega", "279.23", "38.78"]
        "dec_deg" = .ok (some "38.78") := by decide
    rw [hval] at hs
    have hss := Option.some.inj (Except.ok.inj hs)
    subst hss
    exact ⟨_, rfl⟩
  · intro s hs
    have hval : dictGet ["name", "ra_deg", "dec_deg", "mag"] ["Vega", "279.23", "38.78"]
        "mag" = .ok none := by decide
    rw [hval] at hs
    simp at hs

/-- C4: plot_sky computes each marker size as max(1, 10 - mag * 2) squared,
and that size is at least 1 whatever the magnitude. -/
theorem plot_sky_marker_sizes (stars : List Star) (theme : String) (show_labels : Bool) :
    (plotSky stars theme show_labels).sizes =
      stars.map (fun s => (max 1 (10 - s.mag * 2)) ^ 2) ∧
    ∀ q ∈ (plotSky stars theme show_labels).sizes, 1 ≤ q := by
  refine ⟨rfl, ?_⟩
  intro q hq
  simp only [plotSky, List.mem_map] at hq
  obtain ⟨s, _, rfl⟩ := hq
  have h1 : (1 : ℚ) ≤ max 1 (10 - s.mag * 2) := le_max_left _ _
  calc (1 : ℚ) = 1 ^ 2 := (one_pow 2).symm
    _ ≤ (max 1 (10 - s.mag * 2)) ^ 2 := pow_le_pow_left₀ (by norm_num) h1 2

/-- Witness for C4 at a very faint star (magnitude 1000). -/
theorem plot_sky_marker_sizes_witness :
    ((max 1 (10 - (1000 : ℚ) * 2)) ^ 2 ∈
      (plotSky [⟨none, 0, 0, 1000⟩] "dark" false).sizes) ∧
    (1 : ℚ) ≤ (max 1 (10 - (1000 : ℚ) * 2)) ^ 2 := by
  constructor
  · exact List.mem_singleton.mpr rfl
  · exact (plot_sky_marker_sizes [⟨none, 0, 0, 1000⟩] "dark" false).2 _
      (List.mem_singleton.mpr rfl)

/-- C5: the light theme differs from the dark theme in both colours, and
any name absent from the registry silently resolves to the dark theme. -/
theorem theme_resolution :
    ((resolveTheme "light").bg ≠ (resolveTheme "dark").bg ∧
      (resolveTheme "light").fg ≠ (resolveTheme "dark").fg) ∧
    ∀ t, THEMES.lookup t = none → resolveTheme t = resolveTheme "dark" := by
  refine ⟨⟨by decide, by decide⟩, ?_⟩
  intro t ht
  rw [resolveTheme, ht]
  rfl

/-- Witness for C5 at the unregistered theme name solarized. -/
theorem theme_resolution_witness :
    THEMES.lookup "solarized" = none ∧
    resolveTheme "solarized" = resolveTheme "dark" :=
  ⟨by decide, theme_resolution.2 "solarized" (by decide)⟩

/-- C6: a --theme value outside the registered choices is rejected by
argument parsing with a usage error and exit status 2, with no file
touched — no read and no render event happens. -/
theorem cli_unknown_theme_rejected (v : String) (rest : List String) (fs : FS)
    (saveOk : Bool) (hv : themeChoices.contains v = false) :
    pyMain ("--theme" :: v :: rest) fs saveOk =
      { exit := 2, stderr := some (usageMessage (.invalidChoice "--theme" v))
        events := [] } := by
  have hv2 : v ∉ themeChoices := by simpa using hv
  have hparse : parseArgs ("--theme" :: v :: rest) defaultArgs =
      .error (.invalidChoice "--theme" v) := by
    simp [parseArgs, hv2]
  simp [pyMain, hparse]

/-- Witness for C6 at the unregistered theme name neon. -/
theorem cli_unknown_theme_rejected_witness :
    pyMain ["--theme", "neon"] (fun _ => none) true =
      { exit := 2, stderr := some (usageMessage (.invalidChoice "--theme" "neon"))
        events := [] } :=
  cli_unknown_theme_rejected "neon" [] (fun _ => none) true (by decide)

/-- C7: after a successful parse, main reads the data file and then
renders; a loader failure exits with status 1 and the traceback line
naming the exception and its context on stderr; a renderer save failure
likewise exits 1 with a message; a fully successful run exits 0 with
nothing on stderr. -/
theorem main_exit_codes (argv : List String) (fs : FS) (saveOk : Bool) (args : Args)
    (hparse : parseArgs argv defaultArgs = .ok args) :
    (∀ e, loadStars fs args.data = .error e →
      pyMain argv fs saveOk =
        { exit := 1, stderr := some (errMessage e)
          events := [Event.readFile args.data] }) ∧
    (∀ stars, loadStars fs args.data = .ok stars →
      (saveOk = true → pyMain argv fs saveOk =
        { exit := 0, stderr := none
          events := [Event.readFile args.data, Event.openFig,
            Event.writeImage args.output, Event.closeFig] }) ∧
      (saveOk = false → pyMain argv fs saveOk =
        { exit := 1, stderr := some (errMessage (.fileNotFound args.output))
          events := [Event.readFile args.data, Event.openFig,
            Event.saveFail args.output] })) := by
  refine ⟨?_, ?_⟩
  · intro e he
    simp [pyMain, hparse, he]
  · intro stars hl
    refine ⟨?_, ?_⟩
    · intro hs
      subst hs
      simp [pyMain, hparse, hl, plotSkyRun]
    · intro hs
      subst hs
      simp [pyMain, hparse, hl, plotSkyRun]

/-- Witness for C7: default invocation over an empty filesystem fails to
read data/stars.csv and exits 1 with the FileNotFoundError line. -/
theorem main_exit_codes_witness :
    pyMain [] (fun _ => none) true =
      { exit := 1
        stderr := some (errMessage (.fileNotFound "data/stars.csv"))
        events := [Event.readFile "data/stars.csv"] } :=
  (main_exit_codes [] (fun _ => none) true defaultArgs rfl).1 _ rfl

/-- C8: rendering the empty star sequence succeeds: the chart carries no
points and, with the output path writable, the image write completes and
the call returns normally. -/
theorem plot_sky_empty_ok (theme : String) (show_labels : Bool) (output : String) :
    (plotSky [] theme show_labels).ra = [] ∧
    (plotSky [] theme show_labels).dec = [] ∧
    (plotSky [] theme show_labels).sizes = [] ∧
    (plotSky [] theme show_labels).labels = [] ∧
    plotSkyRun [] theme show_labels output true =
      ([Event.openFig, Event.writeImage output, Event.closeFig], true) := by
  refine ⟨rfl, rfl, rfl, ?_, rfl⟩
  cases show_labels <;> rfl

/-- C9: at the failing input — a plot_sky call whose savefig raises — the
figure is opened but never closed: plt.close(fig) sits after fig.savefig
with no try/finally, so the save failure skips it and the figure leaks. -/
theorem plot_sky_save_failure_leaks :
    (plotSkyRun [] "dark" false "night_sky.png" false).2 = false ∧
    ((plotSkyRun [] "dark" false "night_sky.png" false).1.contains Event.openFig) = true ∧
    ((plotSkyRun [] "dark" false "night_sky.png" false).1.contains Event.closeFig) = false := by
  decide

end NightSky
